import Mathlib

/-!
Shallow embedding of the client-side state-distribution core of the
`prometheus-tvshow` repository: the React `WebSocketProvider` component
(`src/ui/src/components/WebSocketProvider.jsx`, and the deduplicating
variant of the same component shipped in the repository), which reduces
the incoming WebSocket envelope stream `{type, payload}` into five local
topic states (chat, mood, memory, scene, narrative) and drives the
reconnect-with-backoff machine in `ws.onclose` / `ws.onopen`.

Numbers compared by the reducer (message timestamps, arc progress) are
JS numbers used only for `===` and `<=` comparison; they are modelled as
rationals, which carry the fractional values the code allows.
-/

/-- A chat message as the reducer reads it: the chat-delta branch of
`ws.onmessage` compares exactly the fields `timestamp`, `character_id`
and `content`. -/
structure ChatMessage where
  character_id : String
  content : String
  timestamp : Rat
deriving DecidableEq

/-- One memory log entry `{type, timestamp, content}`. -/
structure LogEntry where
  type : String
  timestamp : Rat
  content : String
deriving DecidableEq

/-- The scene payload, stored whole by `setScene(data.payload)`; fields as
read by `ScenePanel`. -/
structure Scene where
  theme : String
  emotional_tone : String
  active_characters : List String
  recent_triggers : List String
  summary : String
deriving DecidableEq

/-- One narrative arc descriptor. -/
structure Arc where
  arc_id : String
  title : String
  description : String
  status : String
  current_phase : String
  progress : Rat
deriving DecidableEq

/-- The chat payload on the wire: `data.payload.history` (full history,
treated as snapshot) or `data.payload.message` (single new message,
treated as delta); either field may be absent. -/
structure ChatPayload where
  history : Option (List ChatMessage)
  message : Option ChatMessage
deriving DecidableEq

/-- A successfully decoded wire envelope `{type, payload}`, classified the
way the `switch (data.type)` in `ws.onmessage` classifies it. `other ty`
is an envelope whose `type` string is an unrecognized topic (the switch's
`default` case). -/
inductive Envelope where
  | chat (payload : ChatPayload)
  | mood (payload : List (String × String))
  | memory (character_id : String) (log : List LogEntry)
  | scene (payload : Scene)
  | narrative (payload : List Arc)
  | other (ty : String)
deriving DecidableEq

/-- The five local topic states held by the provider's `useState` hooks.
The `mood` object (character id → mood label) and the `memory` object
(character id → log array) are modelled as lookup functions. -/
structure ClientState where
  chat : List ChatMessage
  mood : String → Option String
  memory : String → Option (List LogEntry)
  scene : Option Scene
  narrative : List Arc

/-- Initial hook values: `[]`, `{}`, `{}`, `null`, `[]`. -/
def initialState : ClientState :=
  { chat := []
    mood := fun _ => none
    memory := fun _ => none
    scene := none
    narrative := [] }

/-- JS `array.slice(-k)`: the last `min k length` elements. -/
def takeLast (k : Nat) (l : List α) : List α :=
  l.drop (l.length - k)

/-- The `prev.some(...)` predicate of the deduplicating chat-delta branch:
field-for-field match on `timestamp`, `character_id`, `content`. -/
def msgEq (a b : ChatMessage) : Bool :=
  a.timestamp == b.timestamp && a.character_id == b.character_id && a.content == b.content

/-- The last-message check of the deduplicating chat-delta branch: with a
nonempty buffer, drop `m` when `m.timestamp <= last.timestamp` and
`character_id` and `content` coincide with the last entry. -/
def dupOfLast (prev : List ChatMessage) (m : ChatMessage) : Bool :=
  match prev.getLast? with
  | some last =>
      decide (m.timestamp ≤ last.timestamp) && m.character_id == last.character_id
        && m.content == last.content
  | none => false

/-- The deduplicating chat-delta reducer (`setChat(prev => ...)` in the
deduplicating variant of `WebSocketProvider`): drop a duplicate of the
last retained message, drop a message already present anywhere in the
buffer, otherwise append and keep the last 50 (`slice(-50)`). -/
def appendChat (prev : List ChatMessage) (m : ChatMessage) : List ChatMessage :=
  if dupOfLast prev m then prev
  else if prev.any (fun x => msgEq x m) then prev
  else takeLast 50 (prev ++ [m])

/-- The plain chat-delta reducer of `src/ui/src/components/WebSocketProvider.jsx`:
`[...prev, data.payload.message].slice(-50)`, no deduplication. -/
def appendChatSimple (prev : List ChatMessage) (m : ChatMessage) : List ChatMessage :=
  takeLast 50 (prev ++ [m])

/-- The mood merge `{...prev, ...data.payload}`: keys of the payload
override, all other keys keep their previous value. -/
def moodMerge (prev : String → Option String) (payload : List (String × String)) :
    String → Option String :=
  fun k =>
    match payload.lookup k with
    | some v => some v
    | none => prev k

/-- One step of the `ws.onmessage` switch on a successfully decoded
envelope: the per-topic merge rules of the provider. -/
def applyEnvelope (s : ClientState) (e : Envelope) : ClientState :=
  match e with
  | .chat p =>
      match p.history with
      | some h => { s with chat := h }
      | none =>
          match p.message with
          | some m => { s with chat := appendChat s.chat m }
          | none => s
  | .mood payload => { s with mood := moodMerge s.mood payload }
  | .memory cid log => { s with memory := fun k => if k = cid then some log else s.memory k }
  | .scene p => { s with scene := some p }
  | .narrative arcs => { s with narrative := arcs }
  | .other _ => s

/-- Connection-affecting actions a handler could issue (`ws.close()`,
`setTimeout(connect, d)`). -/
inductive ClientAction where
  | closeConn
  | scheduleReconnect (delayMs : Nat)
deriving DecidableEq

/-- The whole `ws.onmessage` handler: `JSON.parse` is modelled by the
`Option Envelope` argument (`none` = the parse threw). The handler body
only updates topic states inside `try`; the `catch` ignores the error, and
no branch closes the socket or schedules anything, so the action list
records what the handler does to the connection. -/
def onMessage (s : ClientState) (decoded : Option Envelope) : ClientState × List ClientAction :=
  match decoded with
  | none => (s, [])
  | some e => (applyEnvelope s e, [])

/-- Fold of `applyEnvelope` over a received sequence of envelopes. -/
def applyEnvelopes (s : ClientState) : List Envelope → ClientState
  | [] => s
  | e :: es => applyEnvelopes (applyEnvelope s e) es

/-- Processing of an envelope together with the sequence number the hub
assigned to it. The wire format `{type, payload}` carries no sequence
field and `ws.onmessage` reads none, so the handler's effect is that of
`applyEnvelope` alone, whatever the sequence number. -/
def applySeq (s : ClientState) (se : Nat × Envelope) : ClientState :=
  applyEnvelope s se.2

/-- The reconnect machine's state: the `reconnectAttempts` counter of the
`connect()` closure. -/
structure ConnState where
  reconnectAttempts : Nat
deriving DecidableEq

/-- The literal 1000 (ms) in `setTimeout(connect, 1000 * (reconnectAttempts + 1))`. -/
def baseDelay : Nat := 1000

/-- The delay scheduled for a retry at a given attempt counter:
`1000 * (reconnectAttempts + 1)`. -/
def backoffDelay (attempt : Nat) : Nat :=
  baseDelay * (attempt + 1)

/-- `ws.onclose`: when fewer than 10 attempts have been made, schedule a
reconnect after `backoffDelay` and increment the counter; otherwise do
nothing. Returns the scheduled delay, if any. -/
def onClose (c : ConnState) : ConnState × Option Nat :=
  if c.reconnectAttempts < 10 then
    ({ reconnectAttempts := c.reconnectAttempts + 1 }, some (backoffDelay c.reconnectAttempts))
  else (c, none)

/-- `ws.onopen`: reset the attempt counter to 0. -/
def onOpen (_ : ConnState) : ConnState :=
  { reconnectAttempts := 0 }

/-- The largest delay the code can ever schedule: the attempt counter
never exceeds 9 at scheduling time, so this is 10000 ms. -/
def maxDelay : Nat := backoffDelay 9

/-- The connection state and the scheduled delays after `n` consecutive
transport closes starting from a fresh connection. -/
def closeSeq : Nat → ConnState × List Nat
  | 0 => ({ reconnectAttempts := 0 }, [])
  | n + 1 =>
      let p := closeSeq n
      let q := onClose p.1
      (q.1, p.2 ++ q.2.toList)

/-- The provider component's full state: the five topic states plus the
reconnect machine's counter. -/
structure FullState where
  topics : ClientState
  conn : ConnState

/-- The consumer-visible context value (`const value = {chat, mood,
memory, scene, narrative}` handed to `WebSocketContext.Provider`): exactly
the five topic states and nothing else. -/
structure ContextValue where
  chat : List ChatMessage
  mood : String → Option String
  memory : String → Option (List LogEntry)
  scene : Option Scene
  narrative : List Arc

/-- The context value the component publishes, computed from the full
state the way the source does: from the five topic hooks only. -/
def contextValue (s : FullState) : ContextValue :=
  { chat := s.topics.chat
    mood := s.topics.mood
    memory := s.topics.memory
    scene := s.topics.scene
    narrative := s.topics.narrative }

/-- An envelope is chat-snapshot-bounded when, if it is a chat envelope
carrying a history, that history has at most 50 entries. -/
def chatSnapshotBounded (e : Envelope) : Bool :=
  match e with
  | .chat p =>
      match p.history with
      | some h => decide (h.length ≤ 50)
      | none => true
  | _ => true

/-- A concrete chat message, for witnesses. -/
def mA : ChatMessage := ⟨"max", "hi", 1⟩

/-- A concrete 51-entry chat history, for the snapshot-bound counterexample. -/
def hist51 : List ChatMessage :=
  (List.range 51).map fun i => ⟨"max", "m", (i : Rat)⟩

/-- A concrete scene payload. -/
def sceneA : Scene := ⟨"lab", "calm", ["max"], [], "quiet night"⟩

/-- A second, different concrete scene payload. -/
def sceneB : Scene := ⟨"rooftop", "excited", ["leo"], [], "storm rolling in"⟩

example : appendChat [] mA = [mA] := by decide

example : appendChat [mA] mA = [mA] := by decide

example : (closeSeq 3).2 = [1000, 2000, 3000] := by decide

example : (closeSeq 11).2 = (closeSeq 10).2 := by decide

/-- Claim C3: applying a snapshot envelope for a topic leaves the local
state for that topic equal to the snapshot's payload, regardless of prior
state: a chat envelope carrying a history replaces the chat buffer with
the delivered history array, a scene envelope replaces the scene state
with its payload, and a narrative envelope replaces the narrative state
with the delivered arcs array. -/
theorem C3_snapshot_replaces_state (s : ClientState) (h : List ChatMessage)
    (mo : Option ChatMessage) (sc : Scene) (arcs : List Arc) :
    (applyEnvelope s (.chat ⟨some h, mo⟩)).chat = h
    ∧ (applyEnvelope s (.scene sc)).scene = some sc
    ∧ (applyEnvelope s (.narrative arcs)).narrative = arcs :=
  ⟨rfl, rfl, rfl⟩

/-- Claim C7: an envelope that fails to decode is discarded: all five
local topic states are unchanged and the handler issues no
connection-affecting action (in particular it does not close the
connection). -/
theorem C7_decode_error_discarded (s : ClientState) :
    (onMessage s none).1.chat = s.chat
    ∧ (onMessage s none).1.mood = s.mood
    ∧ (onMessage s none).1.memory = s.memory
    ∧ (onMessage s none).1.scene = s.scene
    ∧ (onMessage s none).1.narrative = s.narrative
    ∧ (onMessage s none).2 = [] :=
  ⟨rfl, rfl, rfl, rfl, rfl, rfl⟩

/-- Claim C8: a memory delta `{character_id, log}` replaces that
character's memory entry with the delivered log array, leaves every other
character's entry unchanged, and leaves the chat, mood, scene and
narrative states unchanged. -/
theorem C8_memory_delta_frame (s : ClientState) (cid : String) (log : List LogEntry) :
    ((applyEnvelope s (.memory cid log)).memory cid = some log)
    ∧ (∀ k, k ≠ cid → (applyEnvelope s (.memory cid log)).memory k = s.memory k)
    ∧ (applyEnvelope s (.memory cid log)).chat = s.chat
    ∧ (applyEnvelope s (.memory cid log)).mood = s.mood
    ∧ (applyEnvelope s (.memory cid log)).scene = s.scene
    ∧ (applyEnvelope s (.memory cid log)).narrative = s.narrative := by
  refine ⟨?_, ?_, rfl, rfl, rfl, rfl⟩
  · simp [applyEnvelope]
  · intro k hk
    simp [applyEnvelope, hk]

/-- Witness for C8 at a concrete input: the entry of character `leo` is
untouched by a memory delta for character `max`. -/
theorem C8_memory_delta_frame_witness :
    ("leo" : String) ≠ "max"
    ∧ (applyEnvelope initialState (.memory "max" [])).memory "leo"
        = initialState.memory "leo" :=
  ⟨by decide, (C8_memory_delta_frame initialState "max" []).2.1 "leo" (by decide)⟩

/-- Claim C9: mood deltas are merged key-by-key: after applying the delta
mapping max to joy and then the delta mapping leo to curiosity, the local
mood state maps max to joy and leo to curiosity, for every prior state. -/
theorem C9_mood_key_merge (s : ClientState) :
    ((applyEnvelope (applyEnvelope s (.mood [("max", "joy")])) (.mood [("leo", "curiosity")])).mood
        "max" = some "joy")
    ∧ ((applyEnvelope (applyEnvelope s (.mood [("max", "joy")])) (.mood [("leo", "curiosity")])).mood
        "leo" = some "curiosity") :=
  ⟨rfl, rfl⟩

/-- Claim C10: a decoded envelope with an unrecognized topic string, or a
chat envelope whose payload has neither a history nor a message field,
leaves all five local topic states unchanged. -/
theorem C10_unknown_envelope_noop (s : ClientState) (ty : String)
    (_hty : ty ∉ ["chat", "mood", "memory", "scene", "narrative"]) :
    applyEnvelope s (.other ty) = s
    ∧ applyEnvelope s (.chat ⟨none, none⟩) = s :=
  ⟨rfl, rfl⟩

/-- Witness for C10 at a concrete input: a `lore_context` envelope is a
no-op on the initial state. -/
theorem C10_unknown_envelope_noop_witness :
    ("lore_context" : String) ∉ ["chat", "mood", "memory", "scene", "narrative"]
    ∧ applyEnvelope initialState (.other "lore_context") = initialState :=
  ⟨by decide, (C10_unknown_envelope_noop initialState "lore_context" (by decide)).1⟩

/-- The length of `takeLast k l` is at most `k`. -/
theorem takeLast_length_le (k : Nat) (l : List α) : (takeLast k l).length ≤ k := by
  simp only [takeLast, List.length_drop]
  omega

/-- `takeLast k l` is a sublist of `l`. -/
theorem takeLast_sublist (k : Nat) (l : List α) : (takeLast k l).Sublist l :=
  List.drop_sublist _ _

/-- Dropping fewer elements than the length preserves the last element. -/
theorem getLast?_drop : ∀ (l : List α) (n : Nat), n < l.length → (l.drop n).getLast? = l.getLast?
  | _, 0, _ => rfl
  | a :: l, n + 1, h => by
    have hl : n < l.length := by simpa using h
    rw [List.drop_succ_cons, getLast?_drop l n hl]
    cases l with
    | nil => simp at hl
    | cons b l' => exact (List.getLast?_cons_cons).symm

/-- `takeLast k` of a nonempty list (with `k > 0`) keeps the last element. -/
theorem getLast?_takeLast (k : Nat) (l : List α) (hk : 0 < k) (hl : l ≠ []) :
    (takeLast k l).getLast? = l.getLast? := by
  apply getLast?_drop
  have : 0 < l.length := List.length_pos.mpr hl
  omega

/-- `msgEq` is equality of chat messages. -/
theorem msgEq_iff (a b : ChatMessage) : msgEq a b = true ↔ a = b := by
  cases a
  cases b
  constructor
  · intro h
    simp only [msgEq, Bool.and_eq_true, decide_eq_true_eq, beq_iff_eq] at h
    simp only [ChatMessage.mk.injEq]
    tauto
  · intro h
    cases h
    simp [msgEq]

/-- A chat delta never grows the buffer past 50 entries. -/
theorem appendChat_length_le {prev : List ChatMessage} (m : ChatMessage)
    (h : prev.length ≤ 50) : (appendChat prev m).length ≤ 50 := by
  unfold appendChat
  split
  · exact h
  · split
    · exact h
    · exact takeLast_length_le 50 _

/-- A delta whose message duplicates the last retained message (same
identity fields, timestamp not newer) is dropped. -/
theorem appendChat_drop_dup {prev : List ChatMessage} {m last : ChatMessage}
    (hl : prev.getLast? = some last) (ht : m.timestamp ≤ last.timestamp)
    (hc : m.character_id = last.character_id) (hco : m.content = last.content) :
    appendChat prev m = prev := by
  have hd : dupOfLast prev m = true := by
    simp [dupOfLast, hl, ht, hc, hco]
  simp [appendChat, hd]

/-- The deduplicating chat-delta reducer is idempotent. -/
theorem appendChat_idem (prev : List ChatMessage) (m : ChatMessage) :
    appendChat (appendChat prev m) m = appendChat prev m := by
  by_cases h1 : dupOfLast prev m = true
  · have hr : appendChat prev m = prev := by simp [appendChat, h1]
    rw [hr]
    exact hr
  · by_cases h2 : prev.any (fun x => msgEq x m) = true
    · have hr : appendChat prev m = prev := by simp [appendChat, h1, h2]
      rw [hr]
      exact hr
    · have hr : appendChat prev m = takeLast 50 (prev ++ [m]) := by
        simp [appendChat, h1, h2]
      rw [hr]
      have hlast : (takeLast 50 (prev ++ [m])).getLast? = some m := by
        rw [getLast?_takeLast 50 (prev ++ [m]) (by omega) (by simp)]
        exact List.getLast?_concat _
      exact appendChat_drop_dup hlast le_rfl rfl rfl

/-- The deduplicating chat-delta reducer preserves freedom from
duplicates. -/
theorem appendChat_nodup {prev : List ChatMessage} (m : ChatMessage)
    (hnd : prev.Nodup) : (appendChat prev m).Nodup := by
  unfold appendChat
  split
  · exact hnd
  · split
    · exact hnd
    · rename_i h1 h2
      have hm : m ∉ prev := by
        intro hmem
        exact h2 (List.any_eq_true.mpr ⟨m, hmem, (msgEq_iff m m).mpr rfl⟩)
      have happ : (prev ++ [m]).Nodup := by
        rw [List.nodup_append]
        refine ⟨hnd, List.nodup_singleton m, ?_⟩
        intro a ha hb
        simp only [List.mem_singleton] at hb
        subst hb
        exact hm ha
      exact List.Nodup.sublist (takeLast_sublist 50 _) happ

/-- A single envelope keeps a within-bound chat buffer within bound,
provided any chat snapshot it carries is itself within bound. -/
theorem applyEnvelope_chat_length_le {s : ClientState} {e : Envelope}
    (hs : s.chat.length ≤ 50) (he : chatSnapshotBounded e = true) :
    (applyEnvelope s e).chat.length ≤ 50 := by
  cases e with
  | chat p =>
    rcases p with ⟨hist, msg⟩
    cases hist with
    | some h =>
      simp only [chatSnapshotBounded, decide_eq_true_eq] at he
      simpa [applyEnvelope] using he
    | none =>
      cases msg with
      | some m => simpa [applyEnvelope] using appendChat_length_le m hs
      | none => simpa [applyEnvelope] using hs
  | mood p => simpa [applyEnvelope] using hs
  | memory cid log => simpa [applyEnvelope] using hs
  | scene p => simpa [applyEnvelope] using hs
  | narrative arcs => simpa [applyEnvelope] using hs
  | other ty => simpa [applyEnvelope] using hs

/-- Folding bounded envelopes keeps the chat buffer within bound. -/
theorem applyEnvelopes_chat_length_le :
    ∀ (es : List Envelope) (s : ClientState), s.chat.length ≤ 50 →
      (∀ e ∈ es, chatSnapshotBounded e = true) →
      (applyEnvelopes s es).chat.length ≤ 50
  | [], _, hs, _ => hs
  | e :: es, s, hs, hb =>
    applyEnvelopes_chat_length_le es (applyEnvelope s e)
      (applyEnvelope_chat_length_le hs (hb e (List.mem_cons_self e es)))
      (fun x hx => hb x (List.mem_cons_of_mem e hx))

/-- Claim C1 counterexample: a chat snapshot carrying a 51-entry history
leaves the local chat buffer with 51 entries — the reducer stores the
history without truncating it to 50. -/
theorem C1_chat_snapshot_overflow :
    50 < (applyEnvelope initialState (.chat ⟨some hist51, none⟩)).chat.length := by
  show 50 < hist51.length
  have h : hist51.length = 51 := rfl
  rw [h]
  omega

/-- Claim C1 (amended): a chat snapshot replaces the buffer with the
delivered history array as is, without truncation; chat deltas never grow
the buffer past 50; hence the buffer stays within 50 entries across any
sequence of envelopes in which every chat snapshot's history has at most
50 entries, starting from a buffer within the bound. -/
theorem C1_chat_buffer_bounded_amended :
    (∀ (s : ClientState) (p : ChatPayload) (h : List ChatMessage),
        p.history = some h → (applyEnvelope s (.chat p)).chat = h)
    ∧ (∀ (s : ClientState) (es : List Envelope), s.chat.length ≤ 50 →
        (∀ e ∈ es, chatSnapshotBounded e = true) →
        (applyEnvelopes s es).chat.length ≤ 50) := by
  constructor
  · intro s p h hp
    rcases p with ⟨hist, msg⟩
    cases hp
    rfl
  · intro s es hs hb
    exact applyEnvelopes_chat_length_le es s hs hb

/-- Witness for C1 (amended) at a concrete input: one chat delta applied
to the initial state keeps the buffer within 50 entries. -/
theorem C1_chat_buffer_bounded_witness :
    initialState.chat.length ≤ 50
    ∧ (∀ e ∈ [Envelope.chat ⟨none, some mA⟩], chatSnapshotBounded e = true)
    ∧ (applyEnvelopes initialState [Envelope.chat ⟨none, some mA⟩]).chat.length ≤ 50 :=
  ⟨by decide, by decide,
    C1_chat_buffer_bounded_amended.2 initialState [Envelope.chat ⟨none, some mA⟩]
      (by decide) (by decide)⟩

/-- Claim C2: the deduplicating chat-delta merge is idempotent; a delta
whose message matches the most recently retained message on all identity
fields with a timestamp not newer than the last is dropped; and the merge
never introduces a duplicate line into a duplicate-free buffer. -/
theorem C2_chat_delta_idempotent :
    (∀ (prev : List ChatMessage) (m : ChatMessage),
        appendChat (appendChat prev m) m = appendChat prev m)
    ∧ (∀ (prev : List ChatMessage) (m last : ChatMessage),
        prev.getLast? = some last → m.timestamp ≤ last.timestamp →
        m.character_id = last.character_id → m.content = last.content →
        appendChat prev m = prev)
    ∧ (∀ (prev : List ChatMessage) (m : ChatMessage),
        prev.Nodup → (appendChat prev m).Nodup) :=
  ⟨appendChat_idem,
    fun _ _ _ hl ht hc hco => appendChat_drop_dup hl ht hc hco,
    fun _ m hnd => appendChat_nodup m hnd⟩

/-- Witness for C2 at a concrete input: re-delivering the single retained
message leaves the buffer unchanged. -/
theorem C2_chat_delta_idempotent_witness :
    [mA].getLast? = some mA ∧ appendChat [mA] mA = [mA] :=
  ⟨rfl, C2_chat_delta_idempotent.2.1 [mA] mA mA rfl le_rfl rfl rfl⟩

/-- Claim C4 counterexample: the reducer accepts envelopes regardless of
sequence numbers. A client that processed the envelope numbered 2 for the
scene topic still applies the envelope numbered 1: its scene state ends
as the stale payload, which the claim forbids. -/
theorem C4_sequence_not_checked_cex :
    (applySeq (applySeq initialState (2, .scene sceneA)) (1, .scene sceneB)).scene = some sceneB
    ∧ sceneB ≠ sceneA :=
  ⟨rfl, by decide⟩

/-- Claim C4 (amended): the subscriber performs no sequence-based
ordering or de-duplication: the wire format carries no sequence field and
the handler applies every decoded envelope in receipt order, with an
effect independent of any sequence number attached to it. -/
theorem C4_sequence_ignored_amended (s : ClientState) (n m : Nat) (e : Envelope) :
    applySeq s (n, e) = applySeq s (m, e) ∧ applySeq s (n, e) = applyEnvelope s e :=
  ⟨rfl, rfl⟩

/-- Claim C5: every scheduled reconnect delay equals
`min maxDelay (baseDelay * (attempt + 1))` and never exceeds `maxDelay`;
the delay is monotonically non-decreasing in the attempt counter; the
counter is incremented exactly when a retry is scheduled and reset to 0
on every successful open. -/
theorem C5_backoff_formula :
    (∀ (c c' : ConnState) (d : Nat), onClose c = (c', some d) →
        d = min maxDelay (baseDelay * (c.reconnectAttempts + 1))
        ∧ d ≤ maxDelay
        ∧ c'.reconnectAttempts = c.reconnectAttempts + 1)
    ∧ (∀ a b : Nat, a ≤ b → backoffDelay a ≤ backoffDelay b)
    ∧ (∀ c : ConnState, (onOpen c).reconnectAttempts = 0) := by
  refine ⟨?_, ?_, fun _ => rfl⟩
  · intro c c' d h
    unfold onClose at h
    split at h
    · rename_i hlt
      rw [Prod.mk.injEq] at h
      obtain ⟨hc, hd⟩ := h
      injection hd with hd
      subst hd
      subst hc
      refine ⟨?_, ?_, rfl⟩
      · simp only [backoffDelay, baseDelay, maxDelay]
        omega
      · simp only [backoffDelay, baseDelay, maxDelay]
        omega
    · simp at h
  · intro a b hab
    simp only [backoffDelay, baseDelay]
    omega

/-- Witness for C5 at a concrete input: the first close schedules a
1000 ms retry, which matches the capped formula. -/
theorem C5_backoff_formula_witness :
    onClose ⟨0⟩ = (⟨1⟩, some 1000)
    ∧ (1000 : Nat) = min maxDelay (baseDelay * (0 + 1)) :=
  ⟨rfl, (C5_backoff_formula.1 ⟨0⟩ ⟨1⟩ 1000 rfl).1⟩

/-- One unfolding step of `closeSeq`. -/
theorem closeSeq_succ (n : Nat) :
    closeSeq (n + 1)
      = ((onClose (closeSeq n).1).1, (closeSeq n).2 ++ (onClose (closeSeq n).1).2.toList) :=
  rfl

/-- Past ten closes, further closes change nothing. -/
theorem closeSeq_ten_add : ∀ k : Nat, closeSeq (10 + k) = closeSeq 10
  | 0 => rfl
  | k + 1 => by
    have ih := closeSeq_ten_add k
    have hstep : (10 : Nat) + (k + 1) = (10 + k) + 1 := rfl
    rw [hstep, closeSeq_succ, ih]
    have h1 : (closeSeq 10).1 = ConnState.mk 10 := by decide
    rw [h1]
    have h2 : onClose (ConnState.mk 10) = (ConnState.mk 10, none) := rfl
    rw [h2]
    show (ConnState.mk 10, (closeSeq 10).2 ++ ([] : List Nat)) = closeSeq 10
    rw [List.append_nil, ← h1]

/-- Claim C6 counterexample: the consumer-visible context value is built
from the five topic states only, so with equal topic states it is
identical whether the retry cap is exhausted (counter 10, nothing more
scheduled) or the connection is fresh (counter 0): no terminal
"disconnected, not retrying" state is reported to consumers. -/
theorem C6_terminal_state_unreported_cex :
    contextValue ⟨initialState, ⟨10⟩⟩ = contextValue ⟨initialState, ⟨0⟩⟩
    ∧ (onClose ⟨10⟩).2 = none :=
  ⟨rfl, rfl⟩

/-- Claim C6 (amended): after losing the transport, reconnect attempts 1
through 10 are scheduled at strictly increasing delays and an 11th
attempt is never scheduled; but exhausting the cap is silent: the
consumer-visible context value depends only on the five topic states and
carries no connection status. -/
theorem C6_retry_cap_amended :
    (closeSeq 10).2 = [1000, 2000, 3000, 4000, 5000, 6000, 7000, 8000, 9000, 10000]
    ∧ List.Pairwise (· < ·) (closeSeq 10).2
    ∧ (∀ n : Nat, 10 ≤ n → (closeSeq n).2 = (closeSeq 10).2)
    ∧ (∀ (t : ClientState) (c c' : ConnState), contextValue ⟨t, c⟩ = contextValue ⟨t, c'⟩) := by
  have hds : (closeSeq 10).2
      = [1000, 2000, 3000, 4000, 5000, 6000, 7000, 8000, 9000, 10000] := by decide
  refine ⟨hds, ?_, ?_, fun t c c' => rfl⟩
  · rw [hds]
    simp
  · intro n hn
    obtain ⟨k, rfl⟩ := Nat.exists_eq_add_of_le hn
    rw [closeSeq_ten_add]

/-- Witness for C6 (amended) at a concrete input: after 12 closes the
scheduled delays are those of the first 10. -/
theorem C6_retry_cap_witness :
    (10 : Nat) ≤ 12 ∧ (closeSeq 12).2 = (closeSeq 10).2 :=
  ⟨by decide, C6_retry_cap_amended.2.2.1 12 (by decide)⟩
